import Mathlib

/-!
Verification of the DSCC REST access core (`dsccClass.py`, class `DSCC` and
`DsccError`): a shallow embedding of the token manager, the five HTTP verb
methods, the search helper and the dictionary-array lookup, together with
theorems about their success/error classification and state effects.

The remote service is modelled as a deterministic oracle `net : Request →
Response`; `requests.<verb>(...)` is modelled as building the `Request` the
Python call would send and consulting the oracle.  Python dictionaries with
string keys are association lists with in-place update semantics (`setKey`).
-/

/-- JSON values, the data exchanged with the service and used as call bodies. -/
inductive Json where
  | str (s : String)
  | num (n : Int)
  | bool (b : Bool)
  | null
  | arr (l : List Json)
  | obj (l : List (String × Json))

/-- Python truthiness of a JSON-like value (`if body:`): `None`, `False`, `0`,
empty strings, lists and dicts are falsy, everything else truthy. -/
def pyTruthy : Json → Bool
  | .str s => s ≠ ""
  | .num n => n ≠ 0
  | .bool b => b
  | .null => false
  | .arr l => !l.isEmpty
  | .obj l => !l.isEmpty

/-- Truthiness of an optional body argument: `body=None` is falsy. -/
def pyTruthyOpt : Option Json → Bool
  | none => false
  | some j => pyTruthy j

/-- JSON string escaping used by `json.dumps` (the characters that occur in
this development: quote, backslash, newline, tab, carriage return). -/
def jsonEscapeChar (c : Char) : String :=
  if c = '"' then "\\\""
  else if c = '\\' then "\\\\"
  else if c = '\n' then "\\n"
  else if c = '\t' then "\\t"
  else if c = '\r' then "\\r"
  else String.mk [c]

/-- A JSON string literal as `json.dumps` produces it. -/
def jsonQuote (s : String) : String :=
  "\"" ++ String.join (s.data.map jsonEscapeChar) ++ "\""

mutual
/-- `json.dumps(x)` with python default separators (used by `doPost` and
`doPatch` when a body is sent). -/
def dumps : Json → String
  | .str s => jsonQuote s
  | .num n => toString n
  | .bool true => "true"
  | .bool false => "false"
  | .null => "null"
  | .arr l => "[" ++ String.intercalate ", " (dumpsList l) ++ "]"
  | .obj l => "\x7b" ++ String.intercalate ", " (dumpsObj l) ++ "\x7d"

/-- Serialization of array elements for `dumps`. -/
def dumpsList : List Json → List String
  | [] => []
  | j :: t => dumps j :: dumpsList t

/-- Serialization of object entries for `dumps`. -/
def dumpsObj : List (String × Json) → List String
  | [] => []
  | (k, v) :: t => (jsonQuote k ++ ": " ++ dumps v) :: dumpsObj t
end

/-- Four spaces per indentation level, as `json.dumps(.., indent=4)` uses. -/
def pad4 (lvl : Nat) : String :=
  String.mk (List.replicate (4 * lvl) ' ')

mutual
/-- `json.dumps(x, indent=4)` (used by `doPut` when a body is sent): entries
one per line, each level indented by four spaces, item separator a comma. -/
def dumpsI (lvl : Nat) : Json → String
  | .str s => jsonQuote s
  | .num n => toString n
  | .bool true => "true"
  | .bool false => "false"
  | .null => "null"
  | .arr [] => "[]"
  | .arr (j :: t) =>
      "[\n" ++ String.intercalate ",\n" (dumpsIList (lvl + 1) (j :: t))
      ++ "\n" ++ pad4 lvl ++ "]"
  | .obj [] => "\x7b\x7d"
  | .obj (e :: t) =>
      "\x7b\n" ++ String.intercalate ",\n" (dumpsIObj (lvl + 1) (e :: t))
      ++ "\n" ++ pad4 lvl ++ "\x7d"

/-- Indented serialization of array elements for `dumpsI`. -/
def dumpsIList (lvl : Nat) : List Json → List String
  | [] => []
  | j :: t => (pad4 lvl ++ dumpsI lvl j) :: dumpsIList lvl t

/-- Indented serialization of object entries for `dumpsI`. -/
def dumpsIObj (lvl : Nat) : List (String × Json) → List String
  | [] => []
  | (k, v) :: t =>
      (pad4 lvl ++ jsonQuote k ++ ": " ++ dumpsI lvl v) :: dumpsIObj lvl t
end

/-- `json.dumps(body, indent=4)` as called in `doPut`. -/
def dumpsIndent4 (j : Json) : String := dumpsI 0 j

/-- Python `str()` of a JSON-like value, as applied to
`self.access_token['access_token']` in `getAccessToken`.  In every claim the
token is a string, for which `str` is the identity; scalars follow python
(`True`, `None`, ...), containers fall back to the compact serialization. -/
def pyStr : Json → String
  | .str s => s
  | .num n => toString n
  | .bool true => "True"
  | .bool false => "False"
  | .null => "None"
  | .arr l => dumps (.arr l)
  | .obj l => dumps (.obj l)

/-- Field access `j[k]` on a JSON object: the value of the first entry named
`k`, `none` when the field is absent (python raises `KeyError` there). -/
def jGet (j : Json) (k : String) : Option Json :=
  match j with
  | .obj l => (l.find? (fun p => p.1 == k)).map Prod.snd
  | _ => none

/-- HTTP request headers: a python string-to-string dict as an ordered
association list with unique keys. -/
abbrev Headers := List (String × String)

/-- Python dict update `h[k] = v`: replace in place when `k` is present,
append otherwise. -/
def setKey : Headers → String → String → Headers
  | [], k, v => [(k, v)]
  | (k0, v0) :: t, k, v =>
      if k0 == k then (k, v) :: t else (k0, v0) :: setKey t k v

/-- Python dict read `h[k]` on a string dict (`none` models `KeyError`). -/
def lookupH (h : Headers) (k : String) : Option String :=
  (h.find? (fun p => p.1 == k)).map Prod.snd

/-- The HTTP verbs the transport layer issues. -/
inductive Verb where
  | GET | POST | PATCH | PUT | DELETE
deriving DecidableEq

/-- An outbound HTTP request as handed to the `requests` library: verb, url,
headers, the serialized payload (`data=...`, absent when no body is sent) and
the `verify` flag (always `False` in the source). -/
structure Request where
  verb : Verb
  url : String
  headers : Headers
  payload : Option String
  verify : Bool
deriving DecidableEq

/-- The remote service's answer: the status code and the parsed JSON body
that `response.json()` would return. -/
structure Response where
  status_code : Nat
  body : Json

/-- `DsccError(location, status, message)`: `expression` holds the location
string, `status` the HTTP status code, `message` the raw response. -/
structure DsccError where
  expression : String
  status : Nat
  message : Response

/-- The ways a `DSCC` method can raise: a `DsccError`, a python `TypeError`
(wrong call arity), a python `KeyError` (missing dict field), or the
exception propagated out of the OAuth2 token fetch. -/
inductive PyError where
  | dscc (e : DsccError)
  | typeError (msg : String)
  | keyError (key : String)
  | authError (cause : String)

/-- The mutable state of a `DSCC` instance: base url, current access token
(initially the empty string, later the full token response dict), the request
headers dict, and the GreenLake credentials. -/
structure Session where
  url : String
  access_token : Json
  headers : Headers
  clientID : Option String
  clientSecret : Option String

/-- A fresh `DSCC(url, clientID, clientSecret)` instance. -/
def Session.init (url : String) (clientID clientSecret : Option String) :
    Session :=
  { url := url, access_token := .str "", headers := [],
    clientID := clientID, clientSecret := clientSecret }

/-- Outcome of one verb method: the returned value or raised error, the list
of requests that went out on the wire, and the instance state afterwards. -/
structure StepResult where
  result : Except PyError Json
  sent : List Request
  session : Session

/-- The request `requests.get(url, verify=False, headers=self.headers)`
sends. -/
def getRequest (s : Session) (url : String) : Request :=
  { verb := .GET, url := url, headers := s.headers, payload := none,
    verify := false }

/-- `doGet(self, url)`: send a GET with the instance headers; return the
parsed body on status 200, otherwise raise
`DsccError('doGet '+url, status_code, response)`. -/
def doGet (s : Session) (url : String) (net : Request → Response) :
    StepResult :=
  if (net (getRequest s url)).status_code == 200 then
    { result := .ok (net (getRequest s url)).body,
      sent := [getRequest s url], session := s }
  else
    { result := .error (.dscc
        { expression := "doGet " ++ url,
          status := (net (getRequest s url)).status_code,
          message := net (getRequest s url) }),
      sent := [getRequest s url], session := s }

/-- Lines 91-94 of the source, shared verbatim by `doPost`, `doDelete`,
`doPatch` and `doPut`: send `req`, return the parsed body on status 200, 201
or 202, otherwise raise `DsccError(tag+url, status_code, response)`.  The
location prefix `tag` is the literal each method writes in its `raise` line
(`doPatch` and `doPut` pass the copy-pasted tag `"doPost "`). -/
def classify202 (tag : String) (url : String) (req : Request) (s : Session)
    (net : Request → Response) : StepResult :=
  if ((net req).status_code == 200) || ((net req).status_code == 201)
      || ((net req).status_code == 202) then
    { result := .ok (net req).body, sent := [req], session := s }
  else
    { result := .error (.dscc
        { expression := tag ++ url, status := (net req).status_code,
          message := net req }),
      sent := [req], session := s }

/-- `doPost(self, url, body=None)`: when `body` is truthy, `headers =
self.headers` aliases the instance dict, so `headers['Content-Type'] =
'application/json'` also updates `self.headers`, and the serialized body is
sent; otherwise (`body=None` or any falsy body) the unmodified instance
headers are sent with no payload. -/
def doPost (s : Session) (url : String) (body : Option Json)
    (net : Request → Response) : StepResult :=
  match body with
  | some b =>
      if pyTruthy b then
        let headers := setKey s.headers "Content-Type" "application/json"
        classify202 "doPost " url
          { verb := .POST, url := url, headers := headers,
            payload := some (dumps b), verify := false }
          { s with headers := headers } net
      else
        classify202 "doPost " url
          { verb := .POST, url := url, headers := s.headers,
            payload := none, verify := false } s net
  | none =>
      classify202 "doPost " url
        { verb := .POST, url := url, headers := s.headers,
          payload := none, verify := false } s net

/-- `doDelete(self, url)`: send a DELETE with the instance headers and no
body; raises `DsccError('doDelete '+url, ...)` outside 200/201/202. -/
def doDelete (s : Session) (url : String) (net : Request → Response) :
    StepResult :=
  classify202 "doDelete " url
    { verb := .DELETE, url := url, headers := s.headers, payload := none,
      verify := false } s net

/-- `doPatch(self, url, body=None)`: same body handling and success codes as
`doPost`; on failure the source raises `DsccError('doPost '+url, ...)` — the
location tag says `doPost`, not `doPatch` (line 113 of the source). -/
def doPatch (s : Session) (url : String) (body : Option Json)
    (net : Request → Response) : StepResult :=
  match body with
  | some b =>
      if pyTruthy b then
        let headers := setKey s.headers "Content-Type" "application/json"
        classify202 "doPost " url
          { verb := .PATCH, url := url, headers := headers,
            payload := some (dumps b), verify := false }
          { s with headers := headers } net
      else
        classify202 "doPost " url
          { verb := .PATCH, url := url, headers := s.headers,
            payload := none, verify := false } s net
  | none =>
      classify202 "doPost " url
        { verb := .PATCH, url := url, headers := s.headers,
          payload := none, verify := false } s net

/-- `doPut(self, url, body=None)`: like `doPost` but the body is serialized
with `json.dumps(body, indent=4)`; on failure the source raises
`DsccError('doPost '+url, ...)` — the location tag says `doPost`, not
`doPut` (line 125 of the source). -/
def doPut (s : Session) (url : String) (body : Option Json)
    (net : Request → Response) : StepResult :=
  match body with
  | some b =>
      if pyTruthy b then
        let headers := setKey s.headers "Content-Type" "application/json"
        classify202 "doPost " url
          { verb := .PUT, url := url, headers := headers,
            payload := some (dumpsIndent4 b), verify := false }
          { s with headers := headers } net
      else
        classify202 "doPost " url
          { verb := .PUT, url := url, headers := s.headers,
            payload := none, verify := false } s net
  | none =>
      classify202 "doPost " url
        { verb := .PUT, url := url, headers := s.headers,
          payload := none, verify := false } s net

/-- A python call `self.doGet(args...)`: `doGet` is declared with exactly one
parameter besides `self`, so python raises `TypeError` before the method body
runs (and before any request goes out) unless exactly one argument is
passed. -/
def pyCallDoGet (s : Session) (args : List String)
    (net : Request → Response) : StepResult :=
  match args with
  | [url] => doGet s url net
  | _ =>
      { result := .error (.typeError
          ("doGet() takes 2 positional arguments but "
            ++ toString (args.length + 1) ++ " were given")),
        sent := [], session := s }

/-- `doSearch(self, query)`: the source (line 132) evaluates
`self.doGet(self.url+'/search', query)['items']`.  The call passes two
positional arguments to `doGet`, which accepts only `url`, so the call raises
`TypeError`; had it returned, the `items` field of the result would be
extracted (`KeyError` when absent). -/
def doSearch (s : Session) (query : String) (net : Request → Response) :
    StepResult :=
  let r := pyCallDoGet s [s.url ++ "/search", query] net
  match r.result with
  | .ok j =>
      match jGet j "items" with
      | some items => { r with result := .ok items }
      | none => { r with result := .error (.keyError "items") }
  | .error _ => r

/-- `getAccessToken(self)`: the OAuth2 client-credentials exchange
(`oauth.fetch_token(...)` with HTTP Basic auth from the instance
credentials) is abstracted as its outcome `fetch`: either the parsed token
response dict or the exception the underlying libraries raise.  On success
the source first stores the whole token dict in `self.access_token`, then
rebuilds `self.headers` from `str(self.access_token['access_token'])`; if the
fetch raises, the exception propagates and neither field is assigned. -/
def getAccessToken (s : Session) (fetch : Except String Json) :
    Except PyError Unit × Session :=
  match fetch with
  | .error cause => (.error (.authError cause), s)
  | .ok tok =>
      let s1 := { s with access_token := tok }
      match jGet tok "access_token" with
      | none => (.error (.keyError "access_token"), s1)
      | some v =>
          (.ok (),
           { s1 with headers :=
              [("Authorization", "Bearer " ++ pyStr v),
               ("Accept", "application/json")] })

/-- A python dictionary with string keys and string values, the element shape
`daSearch` is exercised with throughout the claims. -/
abbrev SDict := List (String × String)

/-- Dict read `d[key]` on a string dict (`none` models `KeyError`). -/
def dGet (d : SDict) (key : String) : Option String :=
  (d.find? (fun p => p.1 == key)).map Prod.snd

/-- The record `daSearch` returns when no entry matches. -/
def daSentinel (key value : String) : SDict :=
  [("Error",
    "Key:Value pair -" ++ key ++ ":" ++ value ++ " not found in the dataset!")]

/-- `daSearch(self, key, value, dar)`: scan `dar` in order and return the
first `d` with `d[key] == value`; if the scan ends without a match, return
the sentinel record built from `key` and `value`.  `d[key]` is a direct
subscript, so an item lacking `key` raises `KeyError` (the source never
catches it).  Modelled for string values, the shape of every use in the
claims; the sentinel concatenates `key` and `value` into a message, which in
python requires them to be strings. -/
def daSearch (key value : String) : List SDict → Except PyError SDict
  | [] => .ok (daSentinel key value)
  | d :: rest =>
      match dGet d key with
      | none => .error (.keyError key)
      | some v => if v == value then .ok d else daSearch key value rest

/-- One invocation of a transport-layer method on a `DSCC` instance, used to
state invariants over arbitrary sequences of calls. -/
inductive Call where
  | get (url : String)
  | post (url : String) (body : Option Json)
  | patch (url : String) (body : Option Json)
  | put (url : String) (body : Option Json)
  | delete (url : String)
  | search (query : String)

/-- Dispatch one `Call` on the instance state. -/
def runCall (s : Session) (net : Request → Response) : Call → StepResult
  | .get url => doGet s url net
  | .post url body => doPost s url body net
  | .patch url body => doPatch s url body net
  | .put url body => doPut s url body net
  | .delete url => doDelete s url net
  | .search query => doSearch s query net

/-- Run a sequence of transport calls on one instance, threading the state
and collecting every request that went out. -/
def runCalls (s : Session) (net : Request → Response) :
    List Call → Session × List Request
  | [] => (s, [])
  | c :: cs =>
      ((runCalls (runCall s net c).session net cs).1,
       (runCall s net c).sent ++ (runCalls (runCall s net c).session net cs).2)

/-- A concrete instance after a successful token fetch, used for witnesses
and counterexamples. -/
def sessA : Session :=
  { url := "https://eu1.data.cloud.hpe.com", access_token := .str "",
    headers :=
      [("Authorization", "Bearer tok123"), ("Accept", "application/json")],
    clientID := some "cid", clientSecret := some "secret" }

/-- A remote service answering every request with the given status and
body. -/
def netStatus (code : Nat) (body : Json) : Request → Response :=
  fun _ => { status_code := code, body := body }

theorem classify202_session (tag url : String) (req : Request) (s : Session)
    (net : Request → Response) :
    (classify202 tag url req s net).session = s := by
  unfold classify202
  split <;> rfl

theorem classify202_sent (tag url : String) (req : Request) (s : Session)
    (net : Request → Response) :
    (classify202 tag url req s net).sent = [req] := by
  unfold classify202
  split <;> rfl

theorem classify202_ok (tag url : String) (req : Request) (s : Session)
    (net : Request → Response)
    (h : (net req).status_code = 200 ∨ (net req).status_code = 201
        ∨ (net req).status_code = 202) :
    (classify202 tag url req s net).result = .ok (net req).body := by
  unfold classify202
  rcases h with h | h | h <;> simp [h]

theorem classify202_err (tag url : String) (req : Request) (s : Session)
    (net : Request → Response)
    (h200 : (net req).status_code ≠ 200) (h201 : (net req).status_code ≠ 201)
    (h202 : (net req).status_code ≠ 202) :
    (classify202 tag url req s net).result
      = .error (.dscc
          { expression := tag ++ url, status := (net req).status_code,
            message := net req }) := by
  unfold classify202
  simp [h200, h201, h202]

theorem lookupH_setKey_self (h : Headers) (k v : String) :
    lookupH (setKey h k v) k = some v := by
  induction h with
  | nil => simp [setKey, lookupH]
  | cons p t ih =>
      by_cases hk : p.1 = k
      · simp [setKey, lookupH, hk]
      · simpa [setKey, lookupH, hk] using ih

theorem doGet_session (s : Session) (url : String) (net : Request → Response) :
    (doGet s url net).session = s := by
  unfold doGet
  split <;> rfl

theorem doGet_sent (s : Session) (url : String) (net : Request → Response) :
    (doGet s url net).sent = [getRequest s url] := by
  unfold doGet
  split <;> rfl

theorem classify202_ct (tag url : String) (req : Request) (s1 : Session)
    (net : Request → Response)
    (hs : lookupH s1.headers "Content-Type" = some "application/json")
    (hr : lookupH req.headers "Content-Type" = some "application/json") :
    lookupH (classify202 tag url req s1 net).session.headers "Content-Type"
      = some "application/json"
    ∧ ∀ r ∈ (classify202 tag url req s1 net).sent,
        lookupH r.headers "Content-Type" = some "application/json" := by
  constructor
  · rw [classify202_session]
    exact hs
  · intro r hr2
    rw [classify202_sent] at hr2
    simp only [List.mem_singleton] at hr2
    subst hr2
    exact hr

theorem runCall_ct (s : Session) (net : Request → Response) (c : Call)
    (h : lookupH s.headers "Content-Type" = some "application/json") :
    lookupH (runCall s net c).session.headers "Content-Type"
      = some "application/json"
    ∧ ∀ req ∈ (runCall s net c).sent,
        lookupH req.headers "Content-Type" = some "application/json" := by
  have hset : lookupH (setKey s.headers "Content-Type" "application/json")
      "Content-Type" = some "application/json" := lookupH_setKey_self _ _ _
  cases c with
  | get url =>
      constructor
      · show lookupH (doGet s url net).session.headers _ = _
        rw [doGet_session]
        exact h
      · intro req hreq
        have hreq2 : req ∈ (doGet s url net).sent := hreq
        rw [doGet_sent] at hreq2
        simp only [List.mem_singleton] at hreq2
        subst hreq2
        exact h
  | post url body =>
      cases body with
      | none => exact classify202_ct _ _ _ _ _ h h
      | some b =>
          by_cases hb : pyTruthy b = true
          · show lookupH (doPost s url (some b) net).session.headers _ = _
              ∧ ∀ req ∈ (doPost s url (some b) net).sent, _
            simp only [doPost, hb, if_true]
            exact classify202_ct _ _ _ _ _ hset hset
          · show lookupH (doPost s url (some b) net).session.headers _ = _
              ∧ ∀ req ∈ (doPost s url (some b) net).sent, _
            simp only [doPost, hb, if_false]
            exact classify202_ct _ _ _ _ _ h h
  | patch url body =>
      cases body with
      | none => exact classify202_ct _ _ _ _ _ h h
      | some b =>
          by_cases hb : pyTruthy b = true
          · show lookupH (doPatch s url (some b) net).session.headers _ = _
              ∧ ∀ req ∈ (doPatch s url (some b) net).sent, _
            simp only [doPatch, hb, if_true]
            exact classify202_ct _ _ _ _ _ hset hset
          · show lookupH (doPatch s url (some b) net).session.headers _ = _
              ∧ ∀ req ∈ (doPatch s url (some b) net).sent, _
            simp only [doPatch, hb, if_false]
            exact classify202_ct _ _ _ _ _ h h
  | put url body =>
      cases body with
      | none => exact classify202_ct _ _ _ _ _ h h
      | some b =>
          by_cases hb : pyTruthy b = true
          · show lookupH (doPut s url (some b) net).session.headers _ = _
              ∧ ∀ req ∈ (doPut s url (some b) net).sent, _
            simp only [doPut, hb, if_true]
            exact classify202_ct _ _ _ _ _ hset hset
          · show lookupH (doPut s url (some b) net).session.headers _ = _
              ∧ ∀ req ∈ (doPut s url (some b) net).sent, _
            simp only [doPut, hb, if_false]
            exact classify202_ct _ _ _ _ _ h h
  | delete url => exact classify202_ct _ _ _ _ _ h h
  | search query =>
      constructor
      · exact h
      · intro req hreq
        simp [runCall, doSearch, pyCallDoGet] at hreq

theorem daSearch_cons_match (key value : String) (d : SDict)
    (rest : List SDict) (h : dGet d key = some value) :
    daSearch key value (d :: rest) = .ok d := by
  simp [daSearch, h]

theorem daSearch_cons_miss (key value v0 : String) (d : SDict)
    (rest : List SDict) (h : dGet d key = some v0) (hne : v0 ≠ value) :
    daSearch key value (d :: rest) = daSearch key value rest := by
  simp [daSearch, h, hne]

theorem daSearch_cons_keyless (key value : String) (d : SDict)
    (rest : List SDict) (h : dGet d key = none) :
    daSearch key value (d :: rest) = .error (.keyError key) := by
  simp [daSearch, h]

theorem daSearch_append_miss (key value : String) (pre tail : List SDict)
    (hpre : ∀ d0 ∈ pre, ∃ v0, dGet d0 key = some v0 ∧ v0 ≠ value) :
    daSearch key value (pre ++ tail) = daSearch key value tail := by
  induction pre with
  | nil => rfl
  | cons d t ih =>
      obtain ⟨v0, hget, hne⟩ := hpre d (by simp)
      rw [List.cons_append,
        daSearch_cons_miss key value v0 d (t ++ tail) hget hne]
      exact ih (fun d0 hd0 => hpre d0 (by simp [hd0]))

/-- Claim C1: evaluation at the failing inputs.  A `doPatch` whose response
status is 400 and a `doPut` whose response status is 500 each raise a
`DsccError` whose location string starts with `"doPost "`, the tag of
`doPost`, not the tag of the verb actually invoked — the source copy-pasted
the `raise` line of `doPost` into `doPatch` and `doPut`. -/
theorem doPatch_doPut_error_tag_is_doPost :
    (doPatch sessA "https://eu1.data.cloud.hpe.com/api/v1/settings/7" none
        (netStatus 400 (Json.str "bad"))).result
      = .error (.dscc
          { expression :=
              "doPost " ++ "https://eu1.data.cloud.hpe.com/api/v1/settings/7",
            status := 400,
            message := { status_code := 400, body := Json.str "bad" } })
    ∧ (doPut sessA "https://eu1.data.cloud.hpe.com/api/v1/storage-systems/1"
        none (netStatus 500 (Json.str "err"))).result
      = .error (.dscc
          { expression :=
              "doPost "
                ++ "https://eu1.data.cloud.hpe.com/api/v1/storage-systems/1",
            status := 500,
            message := { status_code := 500, body := Json.str "err" } })
    ∧ ("doPost " ++ "https://eu1.data.cloud.hpe.com/api/v1/settings/7"
        ≠ "doPatch " ++ "https://eu1.data.cloud.hpe.com/api/v1/settings/7") :=
  ⟨rfl, rfl, by decide⟩

/-- Claim C2: evaluation at the failing input.  `doSearch` evaluates
`self.doGet(self.url+'/search', query)`, passing two positional arguments to
`doGet`, which takes only `url`; the call raises `TypeError` before any
request is issued, so even against a service that would answer
`\x7b"items": [\x7b"name": "pool-1"\x7d]\x7d` with status 200, no request is
sent, no `items` value is returned, and the instance state is unchanged. -/
theorem doSearch_always_raises_typeError :
    doSearch sessA "name:pool-1"
        (netStatus 200
          (Json.obj [("items", Json.arr [Json.obj [("name", Json.str "pool-1")]])]))
      = { result := .error (.typeError
            "doGet() takes 2 positional arguments but 3 were given"),
          sent := [], session := sessA } := rfl

/-- Claim C6: `doGet` returns the parsed body exactly when the response
status is 200; any other status raises a `DsccError` whose location is
`"doGet "` followed by the requested url and whose status field is the
response status code. -/
theorem doGet_classification (s : Session) (url : String)
    (net : Request → Response) :
    ((net (getRequest s url)).status_code = 200 →
      (doGet s url net).result = .ok (net (getRequest s url)).body)
    ∧ ((net (getRequest s url)).status_code ≠ 200 →
      (doGet s url net).result
        = .error (.dscc
            { expression := "doGet " ++ url,
              status := (net (getRequest s url)).status_code,
              message := net (getRequest s url) })) := by
  constructor
  · intro h
    simp [doGet, h]
  · intro h
    simp [doGet, h]

/-- Claim C6 witness: `doGet_classification` applied at a status-200 and at
a status-404 service. -/
theorem doGet_classification_witness :
    (netStatus 200 (Json.str "okbody")
        (getRequest sessA "https://eu1.data.cloud.hpe.com/api/v1/tasks")).status_code
      = 200
    ∧ (doGet sessA "https://eu1.data.cloud.hpe.com/api/v1/tasks"
        (netStatus 200 (Json.str "okbody"))).result = .ok (Json.str "okbody")
    ∧ (doGet sessA "https://eu1.data.cloud.hpe.com/api/v1/volumes/9"
        (netStatus 404 Json.null)).result
      = .error (.dscc
          { expression :=
              "doGet " ++ "https://eu1.data.cloud.hpe.com/api/v1/volumes/9",
            status := 404,
            message := { status_code := 404, body := Json.null } }) :=
  ⟨rfl,
   (doGet_classification sessA "https://eu1.data.cloud.hpe.com/api/v1/tasks"
      (netStatus 200 (Json.str "okbody"))).1 rfl,
   (doGet_classification sessA "https://eu1.data.cloud.hpe.com/api/v1/volumes/9"
      (netStatus 404 Json.null)).2 (by decide)⟩

/-- Claim C8: when the token fetch raises, `getAccessToken` propagates the
failure carrying the underlying cause, and the instance's headers and access
token are exactly as before the call, for every prior state. -/
theorem getAccessToken_failure_preserves_state (s : Session) (cause : String) :
    getAccessToken s (.error cause) = (.error (.authError cause), s)
    ∧ (getAccessToken s (.error cause)).2.headers = s.headers
    ∧ (getAccessToken s (.error cause)).2.access_token = s.access_token :=
  ⟨rfl, rfl, rfl⟩

/-- Claim C3 counterexample: a `doPost` whose body is the empty object
`\x7b\x7d` sends the unmodified instance headers — which contain no
Content-Type entry — and no payload, exactly like a body-less `doPost`: the
python test `if body:` is false for an empty dict, so the claimed
Content-Type header and serialized `"\x7b\x7d"` payload are never sent. -/
theorem doPost_empty_object_counterexample :
    (doPost sessA "https://eu1.data.cloud.hpe.com/api/v1/storage-systems"
        (some (Json.obj [])) (netStatus 200 (Json.str "ok"))).sent
      = [{ verb := .POST,
           url := "https://eu1.data.cloud.hpe.com/api/v1/storage-systems",
           headers := sessA.headers, payload := none, verify := false }]
    ∧ lookupH sessA.headers "Content-Type" = none :=
  ⟨rfl, rfl⟩

/-- Claim C3 (amended): a `doPost` with no body argument sends no payload
and does not set Content-Type, and a `doPost` whose body is the empty object
`\x7b\x7d` behaves identically — python truthiness routes the empty dict
through the body-less branch — so the two calls are indistinguishable at the
transport boundary. -/
theorem doPost_empty_object_eq_bodyless (s : Session) (url : String)
    (net : Request → Response) :
    doPost s url (some (Json.obj [])) net = doPost s url none net
    ∧ (doPost s url none net).sent
        = [{ verb := .POST, url := url, headers := s.headers,
             payload := none, verify := false }]
    ∧ (doPost s url none net).session = s := by
  refine ⟨rfl, ?_, ?_⟩
  · rw [show doPost s url none net
        = classify202 "doPost " url
            { verb := .POST, url := url, headers := s.headers,
              payload := none, verify := false } s net from rfl,
      classify202_sent]
  · rw [show doPost s url none net
        = classify202 "doPost " url
            { verb := .POST, url := url, headers := s.headers,
              payload := none, verify := false } s net from rfl,
      classify202_session]

/-- Claim C4 counterexample: a `doPost` with a truthy body mutates the
instance state: `headers = self.headers` aliases the dict, so setting
Content-Type writes through to the session's own headers, which differ
afterwards from their value before the call. -/
theorem transport_mutation_counterexample :
    (doPost sessA "https://eu1.data.cloud.hpe.com/api/v1/storage-systems"
        (some (Json.obj [("name", Json.str "vol1")]))
        (netStatus 200 (Json.str "ok"))).session.headers
      ≠ sessA.headers := by decide

/-- Claim C4 (amended): `doGet`, `doDelete` and every body-less or
falsy-body verb call leave the instance state unchanged; `doPost`, `doPatch`
and `doPut` with a truthy body mutate exactly the headers dict — through the
alias `headers = self.headers` they add the entry Content-Type:
application/json — and leave url, access token and credentials unchanged. -/
theorem transport_state_effects :
    (∀ s url net, (doGet s url net).session = s)
    ∧ (∀ s url net, (doDelete s url net).session = s)
    ∧ (∀ s url net, (doPost s url none net).session = s)
    ∧ (∀ s url net, (doPatch s url none net).session = s)
    ∧ (∀ s url net, (doPut s url none net).session = s)
    ∧ (∀ s url b net, pyTruthy b = false →
        (doPost s url (some b) net).session = s)
    ∧ (∀ s url b net, pyTruthy b = false →
        (doPatch s url (some b) net).session = s)
    ∧ (∀ s url b net, pyTruthy b = false →
        (doPut s url (some b) net).session = s)
    ∧ (∀ s url b net, pyTruthy b = true →
        (doPost s url (some b) net).session
          = { s with
              headers := setKey s.headers "Content-Type" "application/json" })
    ∧ (∀ s url b net, pyTruthy b = true →
        (doPatch s url (some b) net).session
          = { s with
              headers := setKey s.headers "Content-Type" "application/json" })
    ∧ (∀ s url b net, pyTruthy b = true →
        (doPut s url (some b) net).session
          = { s with
              headers := setKey s.headers "Content-Type" "application/json" }) := by
  refine ⟨?_, ?_, ?_, ?_, ?_, ?_, ?_, ?_, ?_, ?_, ?_⟩
  · intro s url net
    unfold doGet
    split <;> rfl
  · intro s url net
    exact classify202_session _ _ _ _ _
  · intro s url net
    exact classify202_session _ _ _ _ _
  · intro s url net
    exact classify202_session _ _ _ _ _
  · intro s url net
    exact classify202_session _ _ _ _ _
  · intro s url b net h
    simp only [doPost, h, Bool.false_eq_true, if_false]
    exact classify202_session _ _ _ _ _
  · intro s url b net h
    simp only [doPatch, h, Bool.false_eq_true, if_false]
    exact classify202_session _ _ _ _ _
  · intro s url b net h
    simp only [doPut, h, Bool.false_eq_true, if_false]
    exact classify202_session _ _ _ _ _
  · intro s url b net h
    simp only [doPost, h, if_true]
    exact classify202_session _ _ _ _ _
  · intro s url b net h
    simp only [doPatch, h, if_true]
    exact classify202_session _ _ _ _ _
  · intro s url b net h
    simp only [doPut, h, if_true]
    exact classify202_session _ _ _ _ _

/-- Claim C4 (amended) witness: `transport_state_effects` applied to a
truthy-body `doPost` on the concrete session. -/
theorem transport_state_effects_witness :
    pyTruthy (Json.obj [("name", Json.str "vol1")]) = true
    ∧ (doPost sessA "https://eu1.data.cloud.hpe.com/api/v1/storage-systems"
        (some (Json.obj [("name", Json.str "vol1")]))
        (netStatus 200 (Json.str "ok"))).session
      = { sessA with
          headers := setKey sessA.headers "Content-Type" "application/json" } :=
  ⟨by decide,
   transport_state_effects.2.2.2.2.2.2.2.2.1 sessA
     "https://eu1.data.cloud.hpe.com/api/v1/storage-systems"
     (Json.obj [("name", Json.str "vol1")])
     (netStatus 200 (Json.str "ok")) (by decide)⟩

/-- Claim C5 counterexample: on the miss case the sentinel the source
returns embeds the key and value and ends in "not found in the dataset!",
which is not the record claimed. -/
theorem daSearch_sentinel_counterexample :
    daSearch "id" "Z" [[("id", "A")], [("id", "X")], [("id", "Y")]]
      = .ok [("Error", "Key:Value pair -id:Z not found in the dataset!")]
    ∧ ([("Error", "Key:Value pair -id:Z not found in the dataset!")] : SDict)
      ≠ [("Error", "Key:Value pair not found")] :=
  ⟨rfl, by decide⟩

/-- Claim C5 (amended): `daSearch` returns the first item whose field `key`
equals `value`; when no item matches it returns — not raises — the sentinel
record `\x7b"Error": "Key:Value pair -<key>:<value> not found in the
dataset!"\x7d`; in particular the lookup of id X in the three-element list
returns the matching item and the lookup of id Z returns the sentinel. -/
theorem daSearch_first_match_and_sentinel :
    (∀ key value pre d rest,
        (∀ d0 ∈ pre, ∃ v0, dGet d0 key = some v0 ∧ v0 ≠ value) →
        dGet d key = some value →
        daSearch key value (pre ++ d :: rest) = .ok d)
    ∧ (∀ key value dar,
        (∀ d0 ∈ dar, ∃ v0, dGet d0 key = some v0 ∧ v0 ≠ value) →
        daSearch key value dar = .ok (daSentinel key value))
    ∧ daSearch "id" "X" [[("id", "A")], [("id", "X")], [("id", "Y")]]
        = .ok [("id", "X")]
    ∧ daSearch "id" "Z" [[("id", "A")], [("id", "X")], [("id", "Y")]]
        = .ok (daSentinel "id" "Z") := by
  refine ⟨?_, ?_, rfl, rfl⟩
  · intro key value pre d rest hpre hd
    rw [daSearch_append_miss key value pre (d :: rest) hpre,
      daSearch_cons_match key value d rest hd]
  · intro key value dar hdar
    have h2 := daSearch_append_miss key value dar [] hdar
    rw [List.append_nil] at h2
    exact h2

/-- Claim C5 (amended) witness: `daSearch_first_match_and_sentinel` applied
to the three-element list, with the non-matching prefix hypothesis
discharged at the concrete items. -/
theorem daSearch_first_match_witness :
    daSearch "id" "X" ([[("id", "A")]] ++ [("id", "X")] :: [[("id", "Y")]])
      = .ok [("id", "X")] :=
  daSearch_first_match_and_sentinel.1 "id" "X" [[("id", "A")]] [("id", "X")]
    [[("id", "Y")]]
    (by
      intro d0 hd0
      simp only [List.mem_singleton] at hd0
      subst hd0
      exact ⟨"A", rfl, by decide⟩)
    rfl

/-- Claim C7: when the token exchange succeeds with a response whose
access_token field is a non-empty string, `getAccessToken` replaces the
instance headers with exactly the two-entry mapping Authorization: Bearer
plus the token and Accept: application/json, so the Authorization value is a
well-formed "Bearer " followed by a non-empty token. -/
theorem getAccessToken_success_headers (s : Session) (tok : Json) (t : String)
    (haccess : jGet tok "access_token" = some (Json.str t)) (hne : t ≠ "") :
    (getAccessToken s (.ok tok)).1 = .ok ()
    ∧ (getAccessToken s (.ok tok)).2.headers
        = [("Authorization", "Bearer " ++ t), ("Accept", "application/json")]
    ∧ ∃ u, u ≠ ""
        ∧ lookupH (getAccessToken s (.ok tok)).2.headers "Authorization"
          = some ("Bearer " ++ u) := by
  refine ⟨?_, ?_, t, hne, ?_⟩
  · simp [getAccessToken, haccess]
  · simp [getAccessToken, haccess, pyStr]
  · simp [getAccessToken, haccess, pyStr, lookupH]

/-- Claim C7 witness: `getAccessToken_success_headers` applied to a fresh
instance and a concrete token response. -/
theorem getAccessToken_success_headers_witness :
    jGet (Json.obj [("access_token", Json.str "abc123"),
        ("token_type", Json.str "Bearer")]) "access_token"
      = some (Json.str "abc123")
    ∧ ("abc123" : String) ≠ ""
    ∧ (getAccessToken
        (Session.init "https://eu1.data.cloud.hpe.com" (some "cid")
          (some "secret"))
        (.ok (Json.obj [("access_token", Json.str "abc123"),
          ("token_type", Json.str "Bearer")]))).2.headers
      = [("Authorization", "Bearer " ++ "abc123"),
         ("Accept", "application/json")] :=
  ⟨rfl, by decide,
   (getAccessToken_success_headers
      (Session.init "https://eu1.data.cloud.hpe.com" (some "cid")
        (some "secret"))
      (Json.obj [("access_token", Json.str "abc123"),
        ("token_type", Json.str "Bearer")])
      "abc123" rfl (by decide)).2.1⟩

/-- A session whose headers already contain a Content-Type entry, as they do
after any body-bearing write call. -/
def sessC : Session :=
  { sessA with
    headers := sessA.headers ++ [("Content-Type", "application/json")] }

/-- Claim C9: after a single `doPost`, `doPatch` or `doPut` with a truthy
body, the instance's own headers dict contains Content-Type:
application/json — the verb methods alias the session dict rather than copy
it — and once a session's headers contain that entry, every subsequent
request sent by any sequence of verb calls on the same session carries a
Content-Type header, GETs and body-less calls included. -/
theorem contentType_header_sticky :
    (∀ s url b net, pyTruthy b = true →
        lookupH (doPost s url (some b) net).session.headers "Content-Type"
          = some "application/json")
    ∧ (∀ s url b net, pyTruthy b = true →
        lookupH (doPatch s url (some b) net).session.headers "Content-Type"
          = some "application/json")
    ∧ (∀ s url b net, pyTruthy b = true →
        lookupH (doPut s url (some b) net).session.headers "Content-Type"
          = some "application/json")
    ∧ (∀ s net cs,
        lookupH s.headers "Content-Type" = some "application/json" →
        lookupH (runCalls s net cs).1.headers "Content-Type"
            = some "application/json"
        ∧ ∀ req ∈ (runCalls s net cs).2,
            lookupH req.headers "Content-Type" = some "application/json") := by
  refine ⟨?_, ?_, ?_, ?_⟩
  · intro s url b net hb
    simp only [doPost, hb, if_true]
    rw [classify202_session]
    exact lookupH_setKey_self _ _ _
  · intro s url b net hb
    simp only [doPatch, hb, if_true]
    rw [classify202_session]
    exact lookupH_setKey_self _ _ _
  · intro s url b net hb
    simp only [doPut, hb, if_true]
    rw [classify202_session]
    exact lookupH_setKey_self _ _ _
  · intro s net cs
    induction cs generalizing s with
    | nil =>
        intro h
        refine ⟨h, ?_⟩
        intro req hreq
        simp [runCalls] at hreq
    | cons c cs ih =>
        intro h
        have hc := runCall_ct s net c h
        have ihx := ih (runCall s net c).session hc.1
        constructor
        · exact ihx.1
        · intro req hreq
          have hsplit : req ∈ (runCall s net c).sent
              ∨ req ∈ (runCalls (runCall s net c).session net cs).2 := by
            simpa [runCalls] using hreq
          rcases hsplit with h1 | h2
          · exact hc.2 req h1
          · exact ihx.2 req h2

/-- Claim C9 witness: `contentType_header_sticky` applied to a truthy-body
`doPost` on the concrete session, and to a GET-then-DELETE sequence on a
session whose headers already carry Content-Type. -/
theorem contentType_header_sticky_witness :
    pyTruthy (Json.obj [("currentValue", Json.str "on")]) = true
    ∧ lookupH (doPost sessA "https://eu1.data.cloud.hpe.com/api/v1/settings/3"
        (some (Json.obj [("currentValue", Json.str "on")]))
        (netStatus 200 Json.null)).session.headers "Content-Type"
      = some "application/json"
    ∧ lookupH sessC.headers "Content-Type" = some "application/json"
    ∧ lookupH (runCalls sessC (netStatus 200 Json.null)
        [Call.get "https://eu1.data.cloud.hpe.com/api/v1/tasks",
         Call.delete "https://eu1.data.cloud.hpe.com/api/v1/volumes/2"]).1.headers
        "Content-Type"
      = some "application/json" :=
  ⟨by decide,
   contentType_header_sticky.1 sessA
     "https://eu1.data.cloud.hpe.com/api/v1/settings/3"
     (Json.obj [("currentValue", Json.str "on")]) (netStatus 200 Json.null)
     (by decide),
   by decide,
   (contentType_header_sticky.2.2.2 sessC (netStatus 200 Json.null)
     [Call.get "https://eu1.data.cloud.hpe.com/api/v1/tasks",
      Call.delete "https://eu1.data.cloud.hpe.com/api/v1/volumes/2"]
     (by decide)).1⟩

/-- Claim C10: `daSearch` never raises when every item of the list contains
the field `key`; but whenever the scan reaches an item lacking `key` — an
item none of whose predecessors matched — the direct subscript `d[key]`
raises `KeyError` instead of returning the sentinel. -/
theorem daSearch_requires_keys :
    (∀ key value dar, (∀ d ∈ dar, (dGet d key).isSome = true) →
        ∃ r, daSearch key value dar = .ok r)
    ∧ (∀ key value pre bad rest,
        (∀ d0 ∈ pre, ∃ v0, dGet d0 key = some v0 ∧ v0 ≠ value) →
        dGet bad key = none →
        daSearch key value (pre ++ bad :: rest)
          = .error (.keyError key)) := by
  constructor
  · intro key value dar hall
    induction dar with
    | nil => exact ⟨daSentinel key value, rfl⟩
    | cons d rest ih =>
        obtain ⟨v0, hv0⟩ := Option.isSome_iff_exists.mp (hall d (by simp))
        by_cases hv : v0 = value
        · subst hv
          exact ⟨d, daSearch_cons_match key v0 d rest hv0⟩
        · rw [daSearch_cons_miss key value v0 d rest hv0 hv]
          exact ih (fun d0 hd0 => hall d0 (by simp [hd0]))
  · intro key value pre bad rest hpre hbad
    rw [daSearch_append_miss key value pre (bad :: rest) hpre,
      daSearch_cons_keyless key value bad rest hbad]

/-- Claim C10 witness: `daSearch_requires_keys` applied to a list whose
items all contain the key, and to a list with a key-less item before the
match. -/
theorem daSearch_requires_keys_witness :
    (∃ r, daSearch "id" "X" [[("id", "A")], [("id", "X")]] = .ok r)
    ∧ daSearch "id" "X" ([[("id", "A")]] ++ ([] : SDict) :: [[("id", "X")]])
      = .error (.keyError "id") :=
  ⟨daSearch_requires_keys.1 "id" "X" [[("id", "A")], [("id", "X")]]
     (by decide),
   daSearch_requires_keys.2 "id" "X" [[("id", "A")]] [] [[("id", "X")]]
     (by
       intro d0 hd0
       simp only [List.mem_singleton] at hd0
       subst hd0
       exact ⟨"A", rfl, by decide⟩)
     rfl⟩
